import Mathlib

/-!
Verification of the dataset / aggregation core of `analyse-energy-data.py`,
a heat-pump energy report generator.  The Python source is shallowly embedded:
records are structures of optional rationals, the `Dataset` dict is an
insertion-ordered association list, dynamic `getattr`/`setattr` dispatch is an
explicit map from metric field names to record fields, and `float` values are
modelled as exact rationals.
-/

set_option autoImplicit false

namespace EnergyData

/-! ## Calendar model

`datetime.datetime` values are embedded as a Gregorian date (year, month, day)
plus seconds within the day.  The ordinal and ISO-calendar computations follow
the CPython `datetime` implementation (`_ymd2ord`, `_isoweek1monday`,
`isocalendar`). -/

def DAYS_IN_MONTH : List Nat := [31, 28, 31, 30, 31, 30, 31, 31, 30, 31, 30, 31]

def is_leap (year : Nat) : Bool :=
  year % 4 == 0 && (year % 100 != 0 || year % 400 == 0)

def days_in_month (year month : Nat) : Nat :=
  if month == 2 && is_leap year then 29 else DAYS_IN_MONTH.getD (month - 1) 0

def days_before_year (year : Nat) : Nat :=
  let y := year - 1
  y * 365 + y / 4 - y / 100 + y / 400

def days_before_month (year month : Nat) : Nat :=
  (DAYS_IN_MONTH.take (month - 1)).sum + (if month > 2 && is_leap year then 1 else 0)

/-- Proleptic Gregorian ordinal of a date, with day 1 = 0001-01-01
(CPython `_ymd2ord`). -/
def ymd2ord (year month day : Nat) : Nat :=
  days_before_year year + days_before_month year month + day

/-- Ordinal of the Monday starting ISO week 1 of `year`
(CPython `_isoweek1monday`); Thursday is weekday 3 counting Monday as 0. -/
def isoweek1monday (year : Nat) : Int :=
  let firstday : Int := ymd2ord year 1 1
  let firstweekday : Int := (firstday + 6) % 7
  let week1monday := firstday - firstweekday
  if firstweekday > 3 then week1monday + 7 else week1monday

/-- ISO calendar (year, week) of a date (CPython `date.isocalendar`, the
weekday component is dropped).  Python `divmod` floor-divides, hence
`Int.fdiv`. -/
def isocalendar (year month day : Nat) : Nat × Nat :=
  let today : Int := ymd2ord year month day
  let week := (today - isoweek1monday year).fdiv 7
  if week < 0 then
    (year - 1, ((today - isoweek1monday (year - 1)).fdiv 7 + 1).toNat)
  else if week ≥ 52 && today ≥ isoweek1monday (year + 1) then
    (year + 1, 1)
  else
    (year, (week + 1).toNat)

/-- The ISO week number used as the weekly bucket index in `main`. -/
def isoWeekOf (year month day : Nat) : Nat := (isocalendar year month day).2

/-- A `datetime.datetime` value: date plus seconds within the day. -/
structure DateTime where
  year : Nat
  month : Nat
  day : Nat
  secs : Nat
  deriving DecidableEq, Repr

/-- The date part is a real Gregorian calendar date and the time fits in a
day: what `datetime.datetime` guarantees of its fields by construction. -/
def DateTime.valid (t : DateTime) : Bool :=
  1 ≤ t.month && t.month ≤ 12 && 1 ≤ t.day && t.day ≤ days_in_month t.year t.month
    && t.secs < 86400

def DateTime.toOrd (t : DateTime) : Nat := ymd2ord t.year t.month t.day

/-- Python `datetime` comparison: lexicographic on the date ordinal and the
time within the day. -/
def DateTime.lt (a b : DateTime) : Bool :=
  a.toOrd < b.toOrd || (a.toOrd == b.toOrd && a.secs < b.secs)

def DateTime.isoWeek (t : DateTime) : Nat := isoWeekOf t.year t.month t.day

/-! ## Records and metric fields

`Record.__init__` declares one nullable field per metric plus `DateTime`.
The dynamic attribute dispatch of the script (`getattr`/`setattr` on a string
built from the CSV header) is embedded as an explicit enumeration of the
value-carrying fields together with a name-to-field map. -/

structure Record where
  DateTime : Option DateTime := none
  ConsumedElectricalEnergy_Heating : Option ℚ := none
  ConsumedElectricalEnergy_DomesticHotWater : Option ℚ := none
  HeatGenerated_Heating : Option ℚ := none
  HeatGenerated_DomesticHotWater : Option ℚ := none
  EarnedEnvironmentEnergy_Heating : Option ℚ := none
  EarnedEnvironmentEnergy_DomesticHotWater : Option ℚ := none
  DhwTankTemperature : Option ℚ := none
  OutdoorTemperature : Option ℚ := none
  ManualModeSetpointHeating : Option ℚ := none
  RoomTemperatureSetpoint : Option ℚ := none
  CurrentRoomTemperature : Option ℚ := none
  deriving DecidableEq, Repr

/-- The value-carrying attributes of `Record`. -/
inductive MetricField where
  | ConsumedElectricalEnergy_Heating
  | ConsumedElectricalEnergy_DomesticHotWater
  | HeatGenerated_Heating
  | HeatGenerated_DomesticHotWater
  | EarnedEnvironmentEnergy_Heating
  | EarnedEnvironmentEnergy_DomesticHotWater
  | DhwTankTemperature
  | OutdoorTemperature
  | ManualModeSetpointHeating
  | RoomTemperatureSetpoint
  | CurrentRoomTemperature
  deriving DecidableEq, Repr

/-- `getattr(record, name)` for a metric attribute. -/
def Record.get (r : Record) : MetricField → Option ℚ
  | .ConsumedElectricalEnergy_Heating => r.ConsumedElectricalEnergy_Heating
  | .ConsumedElectricalEnergy_DomesticHotWater => r.ConsumedElectricalEnergy_DomesticHotWater
  | .HeatGenerated_Heating => r.HeatGenerated_Heating
  | .HeatGenerated_DomesticHotWater => r.HeatGenerated_DomesticHotWater
  | .EarnedEnvironmentEnergy_Heating => r.EarnedEnvironmentEnergy_Heating
  | .EarnedEnvironmentEnergy_DomesticHotWater => r.EarnedEnvironmentEnergy_DomesticHotWater
  | .DhwTankTemperature => r.DhwTankTemperature
  | .OutdoorTemperature => r.OutdoorTemperature
  | .ManualModeSetpointHeating => r.ManualModeSetpointHeating
  | .RoomTemperatureSetpoint => r.RoomTemperatureSetpoint
  | .CurrentRoomTemperature => r.CurrentRoomTemperature

/-- `setattr(record, name, value)` for a metric attribute. -/
def Record.set (r : Record) (f : MetricField) (v : ℚ) : Record :=
  match f with
  | .ConsumedElectricalEnergy_Heating => { r with ConsumedElectricalEnergy_Heating := some v }
  | .ConsumedElectricalEnergy_DomesticHotWater =>
      { r with ConsumedElectricalEnergy_DomesticHotWater := some v }
  | .HeatGenerated_Heating => { r with HeatGenerated_Heating := some v }
  | .HeatGenerated_DomesticHotWater => { r with HeatGenerated_DomesticHotWater := some v }
  | .EarnedEnvironmentEnergy_Heating => { r with EarnedEnvironmentEnergy_Heating := some v }
  | .EarnedEnvironmentEnergy_DomesticHotWater =>
      { r with EarnedEnvironmentEnergy_DomesticHotWater := some v }
  | .DhwTankTemperature => { r with DhwTankTemperature := some v }
  | .OutdoorTemperature => { r with OutdoorTemperature := some v }
  | .ManualModeSetpointHeating => { r with ManualModeSetpointHeating := some v }
  | .RoomTemperatureSetpoint => { r with RoomTemperatureSetpoint := some v }
  | .CurrentRoomTemperature => { r with CurrentRoomTemperature := some v }

/-- The attribute name of a metric field, as it appears on `Record`. -/
def MetricField.attrName : MetricField → String
  | .ConsumedElectricalEnergy_Heating => "ConsumedElectricalEnergy_Heating"
  | .ConsumedElectricalEnergy_DomesticHotWater => "ConsumedElectricalEnergy_DomesticHotWater"
  | .HeatGenerated_Heating => "HeatGenerated_Heating"
  | .HeatGenerated_DomesticHotWater => "HeatGenerated_DomesticHotWater"
  | .EarnedEnvironmentEnergy_Heating => "EarnedEnvironmentEnergy_Heating"
  | .EarnedEnvironmentEnergy_DomesticHotWater => "EarnedEnvironmentEnergy_DomesticHotWater"
  | .DhwTankTemperature => "DhwTankTemperature"
  | .OutdoorTemperature => "OutdoorTemperature"
  | .ManualModeSetpointHeating => "ManualModeSetpointHeating"
  | .RoomTemperatureSetpoint => "RoomTemperatureSetpoint"
  | .CurrentRoomTemperature => "CurrentRoomTemperature"

/-- Resolve an attribute name to a metric field of `Record`; `none` when the
attribute does not exist (Python `getattr` would raise `AttributeError`). -/
def fieldOfAttrName (s : String) : Option MetricField :=
  if s = "ConsumedElectricalEnergy_Heating" then some .ConsumedElectricalEnergy_Heating
  else if s = "ConsumedElectricalEnergy_DomesticHotWater" then
    some .ConsumedElectricalEnergy_DomesticHotWater
  else if s = "HeatGenerated_Heating" then some .HeatGenerated_Heating
  else if s = "HeatGenerated_DomesticHotWater" then some .HeatGenerated_DomesticHotWater
  else if s = "EarnedEnvironmentEnergy_Heating" then some .EarnedEnvironmentEnergy_Heating
  else if s = "EarnedEnvironmentEnergy_DomesticHotWater" then
    some .EarnedEnvironmentEnergy_DomesticHotWater
  else if s = "DhwTankTemperature" then some .DhwTankTemperature
  else if s = "OutdoorTemperature" then some .OutdoorTemperature
  else if s = "ManualModeSetpointHeating" then some .ManualModeSetpointHeating
  else if s = "RoomTemperatureSetpoint" then some .RoomTemperatureSetpoint
  else if s = "CurrentRoomTemperature" then some .CurrentRoomTemperature
  else none

/-- `metric.replace(":", "_")` in `Dataset.add`: the pattern is a single
character, so Python's substring replace is a character-by-character map. -/
def normalizeMetric (s : String) : String :=
  ⟨s.data.map fun c => if c = ':' then '_' else c⟩

instance : Inhabited DateTime := ⟨⟨1, 1, 1, 0⟩⟩

/-- `Record()`: every field starts unset. -/
def Record.init : Record := { DateTime := none }

/-! ## Dataset

`Dataset.records` is a `defaultdict(Record)` keyed by timestamp; Python dicts
iterate in insertion order, so it is embedded as an association list to which
fresh keys are appended.  A failed assertion in `add` aborts the program but
does not roll back mutations already made, so `add` returns the mutated
dataset together with the outcome. -/

abbrev Dataset := List (DateTime × Record)

inductive AddResult where
  | ok
  | assertFail
  | attrError
  deriving DecidableEq, Repr

namespace Dataset

/-- The record stored for `t`, or a fresh `Record()` (defaultdict default). -/
def getRecord (ds : Dataset) (t : DateTime) : Record :=
  ((ds.find? fun p => decide (p.1 = t)).map Prod.snd).getD Record.init

/-- Whether a record is stored under key `t`. -/
def hasKey (ds : Dataset) (t : DateTime) : Bool :=
  (ds.find? fun p => decide (p.1 = t)).isSome

/-- `self.records[t]` as a statement: reading a `defaultdict` inserts a fresh
`Record()` under a previously absent key, at the end of the iteration order. -/
def ensure (ds : Dataset) (t : DateTime) : Dataset :=
  if hasKey ds t then ds else ds ++ [(t, Record.init)]

/-- Mutate the record stored under key `t` in place. -/
def modify (ds : Dataset) (t : DateTime) (f : Record → Record) : Dataset :=
  ds.map fun p => if p.1 = t then (p.1, f p.2) else p

/-- The first two statements of `Dataset.add`: `self.records[date]` creates
the entry if absent, then the DateTime field is set if unset. -/
def setDate (ds : Dataset) (t : DateTime) : Dataset :=
  if (getRecord (ensure ds t) t).DateTime = none then
    modify (ensure ds t) t fun r => { r with DateTime := some t }
  else ensure ds t

/-- `Dataset.add(date, metric, value)`.  The assertion failure and the
`AttributeError` from `getattr` on an unknown attribute both abort the run;
the mutations made before the failure persist. -/
def add (ds : Dataset) (date : DateTime) (metric : String) (value : ℚ) :
    Dataset × AddResult :=
  let ds2 := setDate ds date
  let attr_name := normalizeMetric metric
  if attr_name = "DateTime" then
    -- `getattr` returns the DateTime attribute, which was just set above, so
    -- the `== None` assertion fails.
    (ds2, .assertFail)
  else
    match fieldOfAttrName attr_name with
    | none => (ds2, .attrError)
    | some f =>
        if (getRecord ds2 date).get f = none then
          (modify ds2 date fun r => r.set f value, .ok)
        else (ds2, .assertFail)

/-- `Dataset.iter_records(date_from, date_to)`: yields stored records whose
timestamp is within the inclusive range; a `None` bound is unrestricted.  A
record with unset DateTime would be yielded if both bounds are absent and
would make the Python comparison raise otherwise; such records never occur in
datasets built by `add` (see `wf`). -/
def iter_records (ds : Dataset) (date_from date_to : Option DateTime) :
    List Record :=
  (ds.map Prod.snd).filter fun r =>
    match r.DateTime with
    | some t =>
        (match date_from with | none => true | some f => ! DateTime.lt t f) &&
        (match date_to with | none => true | some u => ! DateTime.lt u t)
    | none => date_from.isNone && date_to.isNone

/-- `Dataset.iter_year(year)`: stored records whose timestamp has the given
calendar year.  `record.DateTime.year` would raise on an unset DateTime;
unreachable for datasets built by `add` (see `wf`). -/
def iter_year (ds : Dataset) (year : Nat) : List Record :=
  (ds.map Prod.snd).filter fun r =>
    match r.DateTime with
    | some t => t.year == year
    | none => false

set_option linter.unusedVariables false in
/-- `Dataset.total(year, metric, date_from, date_to)`: sum of the metric over
the range-filtered records, an unset field contributing 0.  The `year`
argument is unused, exactly as in the source. -/
def total (ds : Dataset) (year : Nat) (metric : MetricField)
    (date_from date_to : Option DateTime) : ℚ :=
  ((iter_records ds date_from date_to).map fun r => (r.get metric).getD 0).sum

/-- `Dataset.total_year(year, metric)`. -/
def total_year (ds : Dataset) (year : Nat) (metric : MetricField) : ℚ :=
  ((iter_year ds year).map fun r => (r.get metric).getD 0).sum

/-- Every stored record carries its key as its DateTime field. -/
def wf (ds : Dataset) : Prop := ∀ p ∈ ds, p.2.DateTime = some p.1

instance (ds : Dataset) : Decidable (wf ds) :=
  decidable_of_iff (∀ p ∈ ds, p.2.DateTime = some p.1) Iff.rfl

end Dataset

/-- A sequence of `add` calls, keeping the mutated dataset whether or not
each call succeeded. -/
def applyAddsFrom (ds : Dataset) (ops : List (DateTime × String × ℚ)) : Dataset :=
  ops.foldl (fun d op => (Dataset.add d op.1 op.2.1 op.2.2).1) ds

/-- A sequence of `add` calls starting from an empty dataset. -/
def applyAdds (ops : List (DateTime × String × ℚ)) : Dataset :=
  applyAddsFrom [] ops

/-! ## CSV row ingestion

One data row of `read_csv`: the loop `for i in range(1, len(headers))` calls
`dataset.add(date, headers[i], float(row[i]))` exactly for the non-empty
cells.  `float` parsing of the cell text is abstracted by `parse`. -/

def rowEmissions (headers row : List String) (parse : String → ℚ) :
    List (Nat × String × ℚ) :=
  (List.range' 1 (headers.length - 1)).filterMap fun i =>
    if row.getD i "" = "" then none
    else some (i, headers.getD i "", parse (row.getD i ""))

def applyRow (ds : Dataset) (date : DateTime) (headers row : List String)
    (parse : String → ℚ) : Dataset :=
  (rowEmissions headers row parse).foldl
    (fun d e => (Dataset.add d date e.2.1 e.2.2).1) ds

/-! ## Charts and per-record COP -/

structure LineChart where
  name : String
  labels : List String := []
  series : List (String × List ℚ) := []
  deriving Repr

def LineChart.add_label (c : LineChart) (label : String) : LineChart :=
  { c with labels := c.labels ++ [label] }

def LineChart.add_series (c : LineChart) (s : String) : LineChart :=
  { c with series := c.series ++ [(s, [])] }

def LineChart.add_datapoint (c : LineChart) (s : String) (v : ℚ) : LineChart :=
  { c with series := c.series.map fun p => if p.1 = s then (p.1, p.2 ++ [v]) else p }

def pad2 (n : Nat) : String := if n < 10 then "0" ++ toString n else toString n

/-- `strftime("%d %m %Y")`. -/
def formatDate (t : DateTime) : String :=
  pad2 t.day ++ " " ++ pad2 t.month ++ " " ++ toString t.year

/-- `cop_combined` of the weekly-COP loop: zero when the consumed total is
zero, otherwise the ratio. -/
def cop_combined (total_consumed total_generated : ℚ) : ℚ :=
  if total_consumed = 0 then 0 else total_generated / total_consumed

/-- `cop_heating` of the COP chart loop. -/
def cop_heating (consumed generated : ℚ) : ℚ :=
  if consumed = 0 then 0 else generated / consumed

/-- `cop_water` of the COP chart loop. -/
def cop_water (consumed generated : ℚ) : ℚ :=
  if consumed = 0 then 0 else generated / consumed

/-- One iteration of the COP chart loop in `main`: records with any of the
four energy metrics unset are skipped, and so are records whose per-channel
COP exceeds 6.  The unset-DateTime case cannot occur for stored records (see
`Dataset.wf`). -/
def copChartStep (c : LineChart) (r : Record) : LineChart :=
  match r.ConsumedElectricalEnergy_Heating, r.ConsumedElectricalEnergy_DomesticHotWater,
        r.HeatGenerated_Heating, r.HeatGenerated_DomesticHotWater with
  | some ch, some cw, some gh, some gw =>
      if cop_heating ch gh > 6 || cop_water cw gw > 6 then c
      else
        let c := c.add_label (formatDate (r.DateTime.getD default))
        let c := c.add_datapoint "COP heating" (cop_heating ch gh)
        c.add_datapoint "COP hot water" (cop_water cw gw)
  | _, _, _, _ => c

/-- The "COP" line chart of `main`, built over the filtered records. -/
def copChart (records : List Record) : LineChart :=
  records.foldl copChartStep
    ((LineChart.add_series (LineChart.add_series { name := "COP" } "COP heating")
      "COP hot water"))

/-- One iteration of the weekly-COP accumulation loop in `main`:
`weekly_cop[year][record.DateTime.isocalendar().week] += cop_combined` for
records with all four energy metrics set whose combined COP is at most 6.
The unset-DateTime case cannot occur for stored records (see `Dataset.wf`). -/
def weeklyCopStep (buckets : List ℚ) (r : Record) : List ℚ :=
  match r.ConsumedElectricalEnergy_Heating, r.ConsumedElectricalEnergy_DomesticHotWater,
        r.HeatGenerated_Heating, r.HeatGenerated_DomesticHotWater, r.DateTime with
  | some ch, some cw, some gh, some gw, some t =>
      if cop_combined (ch + cw) (gh + gw) > 6 then buckets
      else
        let w := t.isoWeek
        buckets.set w (buckets.getD w 0 + cop_combined (ch + cw) (gh + gw))
  | _, _, _, _, _ => buckets

/-- The accumulated weekly sums `[0] * 53` after the per-record loop. -/
def weeklyCopSums (records : List Record) : List ℚ :=
  records.foldl weeklyCopStep (List.replicate 53 0)

/-- `weekly_cop[year] = [x / 7 for x in weekly_cop[year]]`. -/
def weeklyCop (records : List Record) : List ℚ :=
  (weeklyCopSums records).map fun x => x / 7

/-- The "Weekly averaged COP" line chart of `main`: labels `str(1) ..
str(52)` from `range(1, 53)`, then one series per year filled with every
entry of the year's `weekly_cop` list. -/
def weeklyCopChart (recs2023 recs2024 : List Record) : LineChart :=
  let c : LineChart := { name := "Weekly averaged COP" }
  let c := (List.range' 1 52).foldl (fun c w => c.add_label (toString w)) c
  let c := c.add_series "2023"
  let c := (weeklyCop recs2023).foldl (fun c x => c.add_datapoint "2023" x) c
  let c := c.add_series "2024"
  (weeklyCop recs2024).foldl (fun c x => c.add_datapoint "2024" x) c

/-! ## Statements taken from the spec's words

The following definitions follow the specification text, to be compared with
the operations embedded from the source above. -/

/-- Spec side: the timestamp falls within the inclusive range `[from, to]`,
an absent bound being unrestricted. -/
def inRangeSpec (t : DateTime) (date_from date_to : Option DateTime) : Bool :=
  (match date_from with | none => true | some f => ! DateTime.lt t f) &&
  (match date_to with | none => true | some u => ! DateTime.lt u t)

/-- Spec side: the dataset entries whose key timestamp lies in the inclusive
range. -/
def specRangeEntries (ds : Dataset) (date_from date_to : Option DateTime) :
    List (DateTime × Record) :=
  ds.filter fun p => inRangeSpec p.1 date_from date_to

/-- Spec side: the dataset entries whose key timestamp has the given calendar
year. -/
def specYearEntries (ds : Dataset) (year : Nat) : List (DateTime × Record) :=
  ds.filter fun p => p.1.year == year

/-- Number of ISO weeks in a year: December 28 always lies in the last ISO
week of its year. -/
def isoWeeksInYear (year : Nat) : Nat := (isocalendar year 12 28).2

/-- A small sample dataset (the spec's end-to-end example: two January 2023
days of heating data) used to instantiate the verified statements. -/
def sampleDataset : Dataset :=
  applyAdds
    [(⟨2023, 1, 1, 0⟩, "ConsumedElectricalEnergy:Heating", 1),
     (⟨2023, 1, 1, 0⟩, "HeatGenerated:Heating", 3),
     (⟨2023, 1, 2, 0⟩, "ConsumedElectricalEnergy:Heating", 2),
     (⟨2023, 1, 2, 0⟩, "HeatGenerated:Heating", 4)]

/-- A record whose heating COP (7) exceeds the implausibility threshold 6. -/
def outlierDate : DateTime := ⟨2023, 2, 3, 0⟩

def outlierRecord : Record :=
  { DateTime := some outlierDate,
    ConsumedElectricalEnergy_Heating := some 1,
    ConsumedElectricalEnergy_DomesticHotWater := some 1,
    HeatGenerated_Heating := some 7,
    HeatGenerated_DomesticHotWater := some 1 }

def outlierDataset : Dataset := [(outlierDate, outlierRecord)]

/-! ## Basic record lemmas -/

theorem Record.get_set_self (r : Record) (f : MetricField) (v : ℚ) :
    (r.set f v).get f = some v := by
  cases f <;> rfl

theorem Record.get_set_of_ne (r : Record) {f g : MetricField} (v : ℚ) (h : f ≠ g) :
    (r.set f v).get g = r.get g := by
  cases f <;> cases g <;> first | exact absurd rfl h | rfl

theorem Record.get_withDateTime (r : Record) (x : Option EnergyData.DateTime)
    (f : MetricField) : ({ r with DateTime := x } : Record).get f = r.get f := by
  cases f <;> rfl

theorem Record.dateTime_set (r : Record) (f : MetricField) (v : ℚ) :
    (r.set f v).DateTime = r.DateTime := by
  cases f <;> rfl

theorem Record.get_init (f : MetricField) : Record.init.get f = none := by
  cases f <;> rfl

/-! ## Basic dataset lemmas -/

namespace Dataset

theorem hasKey_nil (t : DateTime) : hasKey ([] : Dataset) t = false := rfl

theorem hasKey_cons (k : DateTime) (r : Record) (ds : Dataset) (t : DateTime) :
    hasKey ((k, r) :: ds) t = (decide (k = t) || hasKey ds t) := by
  by_cases h : k = t <;> simp [hasKey, List.find?, h]

theorem getRecord_nil (t : DateTime) : getRecord ([] : Dataset) t = Record.init := rfl

theorem getRecord_cons (k : DateTime) (r : Record) (ds : Dataset) (t : DateTime) :
    getRecord ((k, r) :: ds) t = if k = t then r else getRecord ds t := by
  by_cases h : k = t <;> simp [getRecord, List.find?, h]

theorem modify_nil (t : DateTime) (f : Record → Record) :
    modify ([] : Dataset) t f = [] := rfl

theorem modify_cons (k : DateTime) (r : Record) (ds : Dataset) (t : DateTime)
    (f : Record → Record) :
    modify ((k, r) :: ds) t f =
      (if k = t then (k, f r) else (k, r)) :: modify ds t f := by
  by_cases h : k = t <;> simp [modify, h]

theorem getRecord_eq_init (ds : Dataset) (t : DateTime) (h : hasKey ds t = false) :
    getRecord ds t = Record.init := by
  induction ds with
  | nil => rfl
  | cons p ds ih =>
      rcases p with ⟨k, r⟩
      rw [hasKey_cons] at h
      have hk : ¬ k = t := by
        intro hc
        simp [hc] at h
      rw [getRecord_cons, if_neg hk]
      exact ih (by simpa [hk] using h)

theorem getRecord_mem (ds : Dataset) (t : DateTime) (h : hasKey ds t = true) :
    (t, getRecord ds t) ∈ ds := by
  induction ds with
  | nil => simp [hasKey_nil] at h
  | cons p ds ih =>
      rcases p with ⟨k, r⟩
      rw [hasKey_cons] at h
      by_cases hk : k = t
      · rw [getRecord_cons, if_pos hk, ← hk]
        exact List.mem_cons_self _ _
      · have h' : hasKey ds t = true := by simpa [hk] using h
        rw [getRecord_cons, if_neg hk]
        exact List.mem_cons_of_mem _ (ih h')

theorem hasKey_append (ds₁ ds₂ : Dataset) (t : DateTime) :
    hasKey (ds₁ ++ ds₂) t = (hasKey ds₁ t || hasKey ds₂ t) := by
  induction ds₁ with
  | nil => simp [hasKey_nil]
  | cons p ds ih =>
      rcases p with ⟨k, r⟩
      by_cases h : k = t <;> simp [hasKey_cons, h, ih]

theorem getRecord_append (ds₁ ds₂ : Dataset) (t : DateTime) :
    getRecord (ds₁ ++ ds₂) t =
      if hasKey ds₁ t then getRecord ds₁ t else getRecord ds₂ t := by
  induction ds₁ with
  | nil => simp [hasKey_nil, getRecord_nil]
  | cons p ds ih =>
      rcases p with ⟨k, r⟩
      by_cases h : k = t <;> simp [getRecord_cons, hasKey_cons, h, ih]

theorem hasKey_modify (ds : Dataset) (t t' : DateTime) (f : Record → Record) :
    hasKey (modify ds t f) t' = hasKey ds t' := by
  induction ds with
  | nil => rfl
  | cons p ds ih =>
      rcases p with ⟨k, r⟩
      rw [modify_cons]
      by_cases h : k = t <;> simp [h, hasKey_cons, ih]

theorem getRecord_modify_self (ds : Dataset) (t : DateTime) (f : Record → Record)
    (h : hasKey ds t = true) :
    getRecord (modify ds t f) t = f (getRecord ds t) := by
  induction ds with
  | nil => simp [hasKey_nil] at h
  | cons p ds ih =>
      rcases p with ⟨k, r⟩
      rw [hasKey_cons] at h
      rw [modify_cons]
      by_cases hk : k = t
      · simp [hk, getRecord_cons]
      · have h' : hasKey ds t = true := by simpa [hk] using h
        simp [hk, getRecord_cons, ih h']

theorem getRecord_modify_of_ne (ds : Dataset) (t t' : DateTime) (f : Record → Record)
    (h : t' ≠ t) :
    getRecord (modify ds t f) t' = getRecord ds t' := by
  induction ds with
  | nil => rfl
  | cons p ds ih =>
      rcases p with ⟨k, r⟩
      rw [modify_cons]
      have ht : ¬ t = t' := fun hc => h hc.symm
      by_cases hk : k = t
      · have hk' : ¬ k = t' := by rw [hk]; exact ht
        simp [hk, getRecord_cons, hk', ht, ih]
      · by_cases hk' : k = t' <;> simp [hk, getRecord_cons, hk', h, ht, ih]

theorem ensure_of_hasKey (ds : Dataset) (t : DateTime) (h : hasKey ds t = true) :
    ensure ds t = ds := by
  simp [ensure, h]

theorem hasKey_ensure_self (ds : Dataset) (t : DateTime) :
    hasKey (ensure ds t) t = true := by
  by_cases h : hasKey ds t
  · simp [ensure, h]
  · simp only [Bool.not_eq_true] at h
    simp [ensure, h, hasKey_append, hasKey_cons, hasKey_nil]

theorem getRecord_ensure_self (ds : Dataset) (t : DateTime) :
    getRecord (ensure ds t) t = getRecord ds t := by
  by_cases h : hasKey ds t
  · simp [ensure, h]
  · simp only [Bool.not_eq_true] at h
    rw [ensure, if_neg (by simp [h]), getRecord_append, if_neg (by simp [h]),
      getRecord_eq_init _ _ h, getRecord_cons]
    simp

theorem getRecord_ensure_of_ne (ds : Dataset) (t t' : DateTime) (h : t' ≠ t) :
    getRecord (ensure ds t) t' = getRecord ds t' := by
  by_cases hk : hasKey ds t
  · simp [ensure, hk]
  · simp only [Bool.not_eq_true] at hk
    rw [ensure, if_neg (by simp [hk]), getRecord_append]
    by_cases h' : hasKey ds t'
    · simp [h']
    · simp only [Bool.not_eq_true] at h'
      rw [if_neg (by simp [h']), getRecord_eq_init _ _ h', getRecord_cons]
      have : ¬ t = t' := fun hc => h hc.symm
      simp [this, getRecord_nil]

theorem hasKey_setDate_self (ds : Dataset) (t : DateTime) :
    hasKey (setDate ds t) t = true := by
  unfold setDate
  split
  · rw [hasKey_modify]; exact hasKey_ensure_self ds t
  · exact hasKey_ensure_self ds t

theorem getRecord_setDate_get (ds : Dataset) (t : DateTime) (f : MetricField) :
    (getRecord (setDate ds t) t).get f = (getRecord ds t).get f := by
  unfold setDate
  split
  · rw [getRecord_modify_self _ _ _ (hasKey_ensure_self ds t),
      Record.get_withDateTime, getRecord_ensure_self]
  · rw [getRecord_ensure_self]

theorem getRecord_setDate_dateTime (ds : Dataset) (t : DateTime) :
    (getRecord (setDate ds t) t).DateTime ≠ none := by
  unfold setDate
  split
  · rw [getRecord_modify_self _ _ _ (hasKey_ensure_self ds t)]
    simp
  · assumption

theorem getRecord_setDate_of_ne (ds : Dataset) (t t' : DateTime) (h : t' ≠ t) :
    getRecord (setDate ds t) t' = getRecord ds t' := by
  unfold setDate
  split
  · rw [getRecord_modify_of_ne _ _ _ _ h, getRecord_ensure_of_ne _ _ _ h]
  · rw [getRecord_ensure_of_ne _ _ _ h]

theorem fieldOfAttrName_ne_dt : fieldOfAttrName "DateTime" = none := by decide

/-! ## Behaviour of `add` -/

theorem add_assertFail_of_set (ds : Dataset) (t : DateTime) (m : String) (v : ℚ)
    (f : MetricField) (hf : fieldOfAttrName (normalizeMetric m) = some f)
    (hset : (getRecord ds t).get f ≠ none) :
    (add ds t m v).2 = .assertFail := by
  have hne : ¬ normalizeMetric m = "DateTime" := by
    intro hc
    rw [hc, fieldOfAttrName_ne_dt] at hf
    exact Option.noConfusion hf
  have hbase : (getRecord (setDate ds t) t).get f ≠ none := by
    rw [getRecord_setDate_get]; exact hset
  simp only [add]
  rw [if_neg hne, hf]
  simp only [if_neg hbase]

theorem add_ok_roundtrip (ds : Dataset) (t : DateTime) (m : String) (v : ℚ)
    (hok : (add ds t m v).2 = .ok) :
    ∃ f, fieldOfAttrName (normalizeMetric m) = some f ∧
      (getRecord (add ds t m v).1 t).get f = some v := by
  by_cases hdt : normalizeMetric m = "DateTime"
  · simp only [add, if_pos hdt] at hok
    exact absurd hok (by decide)
  · cases hfo : fieldOfAttrName (normalizeMetric m) with
    | none =>
        simp only [add, if_neg hdt, hfo] at hok
        exact absurd hok (by decide)
    | some f =>
        by_cases hg : (getRecord (setDate ds t) t).get f = none
        · refine ⟨f, rfl, ?_⟩
          simp only [add, if_neg hdt, hfo, if_pos hg]
          rw [getRecord_modify_self _ _ _ (hasKey_setDate_self ds t)]
          exact Record.get_set_self _ f v
        · simp only [add, if_neg hdt, hfo, if_neg hg] at hok
          exact absurd hok (by decide)

theorem getRecord_add_get_of_ne (ds : Dataset) (t t' : DateTime) (m : String)
    (v : ℚ) (f : MetricField)
    (hf : fieldOfAttrName (normalizeMetric m) ≠ some f) :
    (getRecord (add ds t m v).1 t').get f = (getRecord ds t').get f := by
  have base : (getRecord (setDate ds t) t').get f = (getRecord ds t').get f := by
    by_cases h : t' = t
    · subst h; exact getRecord_setDate_get ds t' f
    · rw [getRecord_setDate_of_ne ds t t' h]
  by_cases hdt : normalizeMetric m = "DateTime"
  · simp only [add, if_pos hdt]
    exact base
  · cases hfo : fieldOfAttrName (normalizeMetric m) with
    | none =>
        simp only [add, if_neg hdt, hfo]
        exact base
    | some g =>
        have hg : g ≠ f := fun hc => hf (by rw [hfo, hc])
        by_cases hget : (getRecord (setDate ds t) t).get g = none
        · simp only [add, if_neg hdt, hfo, if_pos hget]
          by_cases h : t' = t
          · subst h
            rw [getRecord_modify_self _ _ _ (hasKey_setDate_self ds t'),
              Record.get_set_of_ne _ _ hg]
            exact base
          · rw [getRecord_modify_of_ne _ _ _ _ h]
            exact base
        · simp only [add, if_neg hdt, hfo, if_neg hget]
          exact base

/-! ## The DateTime invariant -/

theorem mem_ensure (ds : Dataset) (t : DateTime) (p : DateTime × Record)
    (hp : p ∈ ensure ds t) : p ∈ ds ∨ p = (t, Record.init) := by
  unfold ensure at hp
  split at hp
  · exact Or.inl hp
  · rcases List.mem_append.mp hp with h | h
    · exact Or.inl h
    · simp at h
      exact Or.inr (by rw [h])

theorem wf_setDate (ds : Dataset) (t : DateTime) (h : wf ds) : wf (setDate ds t) := by
  unfold setDate
  split
  · intro p hp
    obtain ⟨q, hq, rfl⟩ := List.mem_map.mp hp
    by_cases hqt : q.1 = t
    · simp [hqt]
    · simp only [if_neg hqt]
      rcases mem_ensure ds t q hq with hmem | heq
      · exact h q hmem
      · exact absurd (by rw [heq]) hqt
  · rename_i hdt
    by_cases hk : hasKey ds t
    · rw [ensure_of_hasKey _ _ hk]; exact h
    · exfalso
      apply hdt
      rw [getRecord_ensure_self, getRecord_eq_init _ _ (by simpa using hk)]
      rfl

theorem wf_modify_set (ds : Dataset) (t : DateTime) (f : MetricField) (v : ℚ)
    (h : wf ds) : wf (modify ds t fun r => r.set f v) := by
  intro p hp
  obtain ⟨q, hq, rfl⟩ := List.mem_map.mp hp
  by_cases hqt : q.1 = t
  · simp only [if_pos hqt]
    show (q.2.set f v).DateTime = some q.1
    rw [Record.dateTime_set]
    exact h q hq
  · simp only [if_neg hqt]
    exact h q hq

theorem wf_add (ds : Dataset) (t : DateTime) (m : String) (v : ℚ) (h : wf ds) :
    wf (add ds t m v).1 := by
  by_cases hdt : normalizeMetric m = "DateTime"
  · simp only [add, if_pos hdt]
    exact wf_setDate ds t h
  · cases hfo : fieldOfAttrName (normalizeMetric m) with
    | none =>
        simp only [add, if_neg hdt, hfo]
        exact wf_setDate ds t h
    | some f =>
        by_cases hget : (getRecord (setDate ds t) t).get f = none
        · simp only [add, if_neg hdt, hfo, if_pos hget]
          exact wf_modify_set _ t f v (wf_setDate ds t h)
        · simp only [add, if_neg hdt, hfo, if_neg hget]
          exact wf_setDate ds t h

theorem getRecord_add_ne (ds : Dataset) (t₀ : DateTime) (m : String) (v : ℚ)
    (t : DateTime) (h : t ≠ t₀) :
    getRecord (add ds t₀ m v).1 t = getRecord ds t := by
  have base : getRecord (setDate ds t₀) t = getRecord ds t :=
    getRecord_setDate_of_ne ds t₀ t h
  by_cases hdt : normalizeMetric m = "DateTime"
  · simp only [add, if_pos hdt]; exact base
  · cases hfo : fieldOfAttrName (normalizeMetric m) with
    | none => simp only [add, if_neg hdt, hfo]; exact base
    | some f =>
        by_cases hget : (getRecord (setDate ds t₀) t₀).get f = none
        · simp only [add, if_neg hdt, hfo, if_pos hget]
          rw [getRecord_modify_of_ne _ _ _ _ h]
          exact base
        · simp only [add, if_neg hdt, hfo, if_neg hget]
          exact base

/-- A field once set stays set across any later `add`, whatever its
arguments and outcome. -/
theorem add_preserves_set (ds : Dataset) (t : DateTime) (f : MetricField)
    (t₀ : DateTime) (m : String) (v : ℚ)
    (h : (getRecord ds t).get f ≠ none) :
    (getRecord (add ds t₀ m v).1 t).get f ≠ none := by
  by_cases hkey : t = t₀
  · subst hkey
    by_cases hf : fieldOfAttrName (normalizeMetric m) = some f
    · have hbase : (getRecord (setDate ds t) t).get f ≠ none := by
        rw [getRecord_setDate_get]; exact h
      by_cases hdt : normalizeMetric m = "DateTime"
      · simp only [add, if_pos hdt]
        rw [getRecord_setDate_get]; exact h
      · simp only [add, if_neg hdt, hf, if_neg hbase]
        rw [getRecord_setDate_get]; exact h
    · rw [getRecord_add_get_of_ne _ _ _ _ _ _ hf]
      exact h
  · rw [getRecord_add_ne _ _ _ _ _ hkey]
    exact h

theorem set_persists_applyAddsFrom (ds : Dataset) (t : DateTime) (f : MetricField)
    (ops : List (DateTime × String × ℚ)) (h : (getRecord ds t).get f ≠ none) :
    (getRecord (applyAddsFrom ds ops) t).get f ≠ none := by
  induction ops generalizing ds with
  | nil => exact h
  | cons op ops ih =>
      exact ih _ (add_preserves_set ds t f op.1 op.2.1 op.2.2 h)

theorem wf_applyAddsFrom (ds : Dataset) (ops : List (DateTime × String × ℚ))
    (h : wf ds) : wf (applyAddsFrom ds ops) := by
  induction ops generalizing ds with
  | nil => exact h
  | cons op ops ih => exact ih _ (wf_add ds op.1 op.2.1 op.2.2 h)

theorem mem_of_mem_iter_records (ds : Dataset) (date_from date_to : Option DateTime)
    (r : Record) (h : r ∈ iter_records ds date_from date_to) :
    ∃ p ∈ ds, p.2 = r := by
  have hm : r ∈ ds.map Prod.snd := List.mem_of_mem_filter h
  obtain ⟨p, hp, rfl⟩ := List.mem_map.mp hm
  exact ⟨p, hp, rfl⟩

theorem mem_of_mem_iter_year (ds : Dataset) (y : Nat) (r : Record)
    (h : r ∈ iter_year ds y) : ∃ p ∈ ds, p.2 = r := by
  have hm : r ∈ ds.map Prod.snd := List.mem_of_mem_filter h
  obtain ⟨p, hp, rfl⟩ := List.mem_map.mp hm
  exact ⟨p, hp, rfl⟩

end Dataset

/-! ## Claim C1: duplicate writes always fail the assertion -/

/-- C1: once a previous `add(t, m, v)` has succeeded and set the metric's
Record field, any subsequent `add(t, m, v')` — with any number of other `add`
calls in between — fails with the duplicate-write assertion, for every value
`v'`, whether or not `v'` equals `v`. -/
theorem claim1_duplicate_add_fails (ds : Dataset) (t : DateTime) (m : String)
    (v v' : ℚ) (ops : List (DateTime × String × ℚ))
    (hok : (Dataset.add ds t m v).2 = .ok) :
    (Dataset.add (applyAddsFrom (Dataset.add ds t m v).1 ops) t m v').2 =
      .assertFail := by
  obtain ⟨f, hf, hget⟩ := Dataset.add_ok_roundtrip ds t m v hok
  have hne : (Dataset.getRecord (Dataset.add ds t m v).1 t).get f ≠ none := by
    rw [hget]
    exact fun hc => Option.noConfusion hc
  exact Dataset.add_assertFail_of_set _ t m v' f hf
    (Dataset.set_persists_applyAddsFrom _ t f ops hne)

theorem claim1_duplicate_add_fails_witness :
    ((Dataset.add ([] : Dataset) ⟨2023, 1, 1, 0⟩ "HeatGenerated:Heating" 5).2
        = .ok) ∧
    (Dataset.add
        (applyAddsFrom
          (Dataset.add ([] : Dataset) ⟨2023, 1, 1, 0⟩ "HeatGenerated:Heating" 5).1
          [(⟨2023, 1, 2, 0⟩, "OutdoorTemperature", 3)])
        ⟨2023, 1, 1, 0⟩ "HeatGenerated:Heating" 8).2 = .assertFail :=
  ⟨by decide, claim1_duplicate_add_fails [] ⟨2023, 1, 1, 0⟩ _ 5 8 _ (by decide)⟩

/-! ## Claim C2: write-then-read round trip -/

/-- C2: a successful `add(t, m, v)` stores `v`: reading the Record field that
the normalized metric name maps to, on the record stored for `t`, returns
exactly `v`. -/
theorem claim2_add_roundtrip (ds : Dataset) (t : DateTime) (m : String) (v : ℚ)
    (hok : (Dataset.add ds t m v).2 = .ok) :
    ∃ f, fieldOfAttrName (normalizeMetric m) = some f ∧
      (Dataset.getRecord (Dataset.add ds t m v).1 t).get f = some v :=
  Dataset.add_ok_roundtrip ds t m v hok

theorem claim2_add_roundtrip_witness :
    ((Dataset.add ([] : Dataset) ⟨2023, 5, 1, 0⟩
        "ConsumedElectricalEnergy:Heating" 7).2 = .ok) ∧
    ∃ f, fieldOfAttrName (normalizeMetric "ConsumedElectricalEnergy:Heating")
        = some f ∧
      (Dataset.getRecord
          (Dataset.add ([] : Dataset) ⟨2023, 5, 1, 0⟩
            "ConsumedElectricalEnergy:Heating" 7).1
          ⟨2023, 5, 1, 0⟩).get f = some 7 :=
  ⟨by decide, claim2_add_roundtrip [] ⟨2023, 5, 1, 0⟩ _ 7 (by decide)⟩

/-! ## Claim C10: the stored-DateTime invariant -/

/-- C10: after any sequence of `add` calls — including ones that fail the
duplicate-write assertion — every stored record's DateTime field equals its
key timestamp, so `iter_records` and `iter_year` never yield a record with an
unset DateTime. -/
theorem claim10_datetime_invariant (ops : List (DateTime × String × ℚ))
    (date_from date_to : Option DateTime) (y : Nat) :
    Dataset.wf (applyAdds ops) ∧
    (∀ r ∈ Dataset.iter_records (applyAdds ops) date_from date_to,
      r.DateTime ≠ none) ∧
    (∀ r ∈ Dataset.iter_year (applyAdds ops) y, r.DateTime ≠ none) := by
  have hwf : Dataset.wf (applyAdds ops) :=
    Dataset.wf_applyAddsFrom [] ops
      (by intro p hp; exact absurd hp (List.not_mem_nil p))
  refine ⟨hwf, ?_, ?_⟩
  · intro r hr
    obtain ⟨p, hp, rfl⟩ := Dataset.mem_of_mem_iter_records _ _ _ r hr
    rw [hwf p hp]
    exact fun hc => Option.noConfusion hc
  · intro r hr
    obtain ⟨p, hp, rfl⟩ := Dataset.mem_of_mem_iter_year _ _ r hr
    rw [hwf p hp]
    exact fun hc => Option.noConfusion hc



/-! ## Claim C3: `total` and `total_year` are the spec's filtered sums -/

theorem iter_records_eq_spec (ds : Dataset) (df dto : Option DateTime)
    (h : Dataset.wf ds) :
    Dataset.iter_records ds df dto = (specRangeEntries ds df dto).map Prod.snd := by
  unfold Dataset.iter_records specRangeEntries
  rw [List.filter_map]
  congr 1
  refine List.filter_congr ?_
  intro p hp
  have hdt := h p hp
  simp only [Function.comp, hdt, inRangeSpec]

theorem iter_year_eq_spec (ds : Dataset) (y : Nat) (h : Dataset.wf ds) :
    Dataset.iter_year ds y = (specYearEntries ds y).map Prod.snd := by
  unfold Dataset.iter_year specYearEntries
  rw [List.filter_map]
  congr 1
  refine List.filter_congr ?_
  intro p hp
  have hdt := h p hp
  simp only [Function.comp, hdt]

theorem total_eq_spec (ds : Dataset) (y : Nat) (m : MetricField)
    (df dto : Option DateTime) (h : Dataset.wf ds) :
    Dataset.total ds y m df dto =
      ((specRangeEntries ds df dto).map fun p => (p.2.get m).getD 0).sum := by
  unfold Dataset.total
  rw [iter_records_eq_spec ds df dto h, List.map_map]
  rfl

theorem total_year_eq_spec (ds : Dataset) (y : Nat) (m : MetricField)
    (h : Dataset.wf ds) :
    Dataset.total_year ds y m =
      ((specYearEntries ds y).map fun p => (p.2.get m).getD 0).sum := by
  unfold Dataset.total_year
  rw [iter_year_eq_spec ds y h, List.map_map]
  rfl

/-- C3: on any well-formed dataset, `total` is exactly the sum of the metric
over the inclusively range-filtered records and `total_year` the sum over the
records of the calendar year, an unset field contributing 0; both are total
functions and return exactly 0 when no record matches. -/
theorem claim3_total_is_filtered_sum (ds : Dataset) (y : Nat) (m : MetricField)
    (df dto : Option DateTime) (h : Dataset.wf ds) :
    Dataset.total ds y m df dto =
      ((specRangeEntries ds df dto).map fun p => (p.2.get m).getD 0).sum ∧
    Dataset.total_year ds y m =
      ((specYearEntries ds y).map fun p => (p.2.get m).getD 0).sum ∧
    (specRangeEntries ds df dto = [] → Dataset.total ds y m df dto = 0) ∧
    (specYearEntries ds y = [] → Dataset.total_year ds y m = 0) := by
  refine ⟨total_eq_spec ds y m df dto h, total_year_eq_spec ds y m h, ?_, ?_⟩
  · intro he
    rw [total_eq_spec ds y m df dto h, he]
    rfl
  · intro he
    rw [total_year_eq_spec ds y m h, he]
    rfl

theorem claim3_total_is_filtered_sum_witness :
    Dataset.wf sampleDataset ∧
    (Dataset.total sampleDataset 2023 .HeatGenerated_Heating none none =
        ((specRangeEntries sampleDataset none none).map
          fun p => (p.2.get .HeatGenerated_Heating).getD 0).sum ∧
      Dataset.total_year sampleDataset 2023 .HeatGenerated_Heating =
        ((specYearEntries sampleDataset 2023).map
          fun p => (p.2.get .HeatGenerated_Heating).getD 0).sum ∧
      (specRangeEntries sampleDataset none none = [] →
        Dataset.total sampleDataset 2023 .HeatGenerated_Heating none none = 0) ∧
      (specYearEntries sampleDataset 2023 = [] →
        Dataset.total_year sampleDataset 2023 .HeatGenerated_Heating = 0)) :=
  ⟨by decide,
    claim3_total_is_filtered_sum sampleDataset 2023 .HeatGenerated_Heating
      none none (by decide)⟩

/-! ## Claim C9: zero consumed denominators give COP 0 -/

/-- C9: when the relevant consumed denominator is zero, the per-record COP is
defined to be 0 by the explicit guard: `cop_combined` for the combined COP and
`cop_heating` / `cop_water` for the per-channel COPs; all three are total
functions, so no division error is raised. -/
theorem claim9_cop_zero_denominator (tg g h : ℚ) :
    cop_combined 0 tg = 0 ∧ cop_heating 0 g = 0 ∧ cop_water 0 h = 0 := by
  refine ⟨?_, ?_, ?_⟩ <;> simp [cop_combined, cop_heating, cop_water]

/-! ## Claim C8: weekly averages divide by the constant 7 -/

theorem weeklyCopStep_length (b : List ℚ) (r : Record) :
    (weeklyCopStep b r).length = b.length := by
  unfold weeklyCopStep
  split
  · split
    · rfl
    · simp
  · rfl

theorem weeklyCopSums_length (records : List Record) :
    (weeklyCopSums records).length = 53 := by
  suffices h : ∀ (l : List Record) (b : List ℚ),
      (l.foldl weeklyCopStep b).length = b.length by
    simpa [weeklyCopSums] using h records (List.replicate 53 0)
  intro l
  induction l with
  | nil => intro b; rfl
  | cons r l ih =>
      intro b
      simp only [List.foldl_cons]
      rw [ih, weeklyCopStep_length]

/-- C8: for every bucket index, the final weekly-averaged COP value is the
accumulated weekly sum divided by exactly the constant 7, however many
records fall in that ISO week. -/
theorem claim8_weekly_average_div7 (records : List Record) (w : Nat)
    (hw : w < 53) :
    (weeklyCop records).getD w 0 = (weeklyCopSums records).getD w 0 / 7 := by
  have hlen : (weeklyCopSums records).length = 53 := weeklyCopSums_length records
  have hw' : w < (weeklyCopSums records).length := by rw [hlen]; exact hw
  unfold weeklyCop
  rw [List.getD_eq_getElem?_getD, List.getElem?_map,
    List.getElem?_eq_getElem hw', List.getD_eq_getElem?_getD,
    List.getElem?_eq_getElem hw']
  rfl

theorem claim8_weekly_average_div7_witness :
    5 < 53 ∧
    (weeklyCop [outlierRecord]).getD 5 0 =
      (weeklyCopSums [outlierRecord]).getD 5 0 / 7 :=
  ⟨by decide, claim8_weekly_average_div7 [outlierRecord] 5 (by decide)⟩

/-! ## Claim C6: weekly bucket indices stay in bounds -/

theorem DAYS_IN_MONTH_getD_le (i : Nat) : DAYS_IN_MONTH.getD i 0 ≤ 31 := by
  have hall : ∀ x ∈ DAYS_IN_MONTH, x ≤ 31 := by decide
  rw [List.getD_eq_getElem?_getD]
  cases hx : DAYS_IN_MONTH[i]? with
  | none => simp
  | some x =>
      simp only [Option.getD_some]
      obtain ⟨hlt, hxe⟩ := List.getElem?_eq_some_iff.mp hx
      exact hxe ▸ hall _ (List.getElem_mem hlt)

theorem days_in_month_le (y m : Nat) : days_in_month y m ≤ 31 := by
  unfold days_in_month
  split
  · omega
  · exact DAYS_IN_MONTH_getD_le (m - 1)

/-- Exhaustive check over the 2023 calendar: no date of calendar year 2023
has ISO week number above 52. -/
theorem isoWeek2023_bound : ∀ m, m < 13 → ∀ d, d < 32 →
    (1 ≤ m ∧ m ≤ 12 ∧ 1 ≤ d ∧ d ≤ days_in_month 2023 m) →
    isoWeekOf 2023 m d ≤ 52 := by decide

/-- Exhaustive check over the 2024 calendar: no date of calendar year 2024
has ISO week number above 52. -/
theorem isoWeek2024_bound : ∀ m, m < 13 → ∀ d, d < 32 →
    (1 ≤ m ∧ m ≤ 12 ∧ 1 ≤ d ∧ d ≤ days_in_month 2024 m) →
    isoWeekOf 2024 m d ≤ 52 := by decide

/-- C6: for every valid timestamp of calendar year 2023 or 2024 (the years
iterated by `main`), the weekly bucket index
`record.DateTime.isocalendar().week` stays strictly below the length of the
53-entry bucket list, so the accumulation never indexes outside the
allocation; the index moreover never equals 53, consistent with neither 2023
nor 2024 containing an ISO week 53. -/
theorem claim6_weekly_bucket_safe (t : DateTime) (records : List Record)
    (hv : t.valid = true) (hy : t.year = 2023 ∨ t.year = 2024) :
    t.isoWeek < (weeklyCopSums records).length ∧ t.isoWeek ≠ 53 ∧
    isoWeeksInYear 2023 = 52 ∧ isoWeeksInYear 2024 = 52 := by
  have hv' : 1 ≤ t.month ∧ t.month ≤ 12 ∧ 1 ≤ t.day ∧
      t.day ≤ days_in_month t.year t.month := by
    unfold DateTime.valid at hv
    simp only [Bool.and_eq_true, decide_eq_true_eq] at hv
    exact ⟨hv.1.1.1.1, hv.1.1.1.2, hv.1.1.2, hv.1.2⟩
  have hm13 : t.month < 13 := by omega
  have hd32 : t.day < 32 := by
    have := days_in_month_le t.year t.month
    omega
  have hb : t.isoWeek ≤ 52 := by
    rcases hy with hy | hy
    · have h4 := hv'.2.2.2
      rw [hy] at h4
      have hbound := isoWeek2023_bound t.month hm13 t.day hd32
        ⟨hv'.1, hv'.2.1, hv'.2.2.1, h4⟩
      unfold DateTime.isoWeek
      rw [hy]
      exact hbound
    · have h4 := hv'.2.2.2
      rw [hy] at h4
      have hbound := isoWeek2024_bound t.month hm13 t.day hd32
        ⟨hv'.1, hv'.2.1, hv'.2.2.1, h4⟩
      unfold DateTime.isoWeek
      rw [hy]
      exact hbound
  refine ⟨?_, by omega, by decide, by decide⟩
  rw [weeklyCopSums_length]
  omega

theorem claim6_weekly_bucket_safe_witness :
    ((⟨2024, 12, 30, 0⟩ : DateTime).valid = true) ∧
    ((⟨2024, 12, 30, 0⟩ : DateTime).isoWeek <
        (weeklyCopSums [outlierRecord]).length ∧
      (⟨2024, 12, 30, 0⟩ : DateTime).isoWeek ≠ 53 ∧
      isoWeeksInYear 2023 = 52 ∧ isoWeeksInYear 2024 = 52) :=
  ⟨by decide,
    claim6_weekly_bucket_safe ⟨2024, 12, 30, 0⟩ [outlierRecord] (by decide)
      (Or.inr rfl)⟩

/-! ## Claim C5: COP outliers are dropped from the chart, not the totals -/

/-- C5: a record with all four energy metrics present whose per-channel COP
exceeds 6 contributes no label and no datapoint to the "COP" chart (the loop
body leaves the chart unchanged), while `total_year` still sums the raw
per-record field values over all records of the year with no COP filter, the
outlier record among them. -/
theorem claim5_outlier_excluded_from_chart_not_totals
    (c : LineChart) (r : Record) (ds : Dataset) (t : DateTime) (y : Nat)
    (m : MetricField) (ch cw gh gw : ℚ)
    (hch : r.ConsumedElectricalEnergy_Heating = some ch)
    (hcw : r.ConsumedElectricalEnergy_DomesticHotWater = some cw)
    (hgh : r.HeatGenerated_Heating = some gh)
    (hgw : r.HeatGenerated_DomesticHotWater = some gw)
    (hcop : cop_heating ch gh > 6 ∨ cop_water cw gw > 6)
    (hwf : Dataset.wf ds) (hmem : (t, r) ∈ ds) (hy : t.year = y) :
    copChartStep c r = c ∧
    (t, r) ∈ specYearEntries ds y ∧
    Dataset.total_year ds y m =
      ((specYearEntries ds y).map fun p => (p.2.get m).getD 0).sum := by
  refine ⟨?_, ?_, total_year_eq_spec ds y m hwf⟩
  · have hguard :
        (decide (cop_heating ch gh > 6) || decide (cop_water cw gw > 6))
          = true := by
      rcases hcop with h | h <;> simp [h]
    unfold copChartStep
    rw [hch, hcw, hgh, hgw]
    simp [hguard]
  · exact List.mem_filter.mpr ⟨hmem, by simp [specYearEntries, hy]⟩

theorem claim5_outlier_excluded_witness :
    cop_heating 1 7 > 6 ∧
    (copChartStep { name := "COP" } outlierRecord = { name := "COP" } ∧
      (outlierDate, outlierRecord) ∈ specYearEntries outlierDataset 2023 ∧
      Dataset.total_year outlierDataset 2023 .HeatGenerated_Heating =
        ((specYearEntries outlierDataset 2023).map
          fun p => (p.2.get .HeatGenerated_Heating).getD 0).sum) :=
  ⟨by norm_num [cop_heating],
    claim5_outlier_excluded_from_chart_not_totals { name := "COP" }
      outlierRecord outlierDataset outlierDate 2023 .HeatGenerated_Heating
      1 1 7 1 rfl rfl rfl rfl (Or.inl (by norm_num [cop_heating]))
      (by intro p hp; rw [List.mem_singleton.mp hp]; rfl)
      (List.mem_singleton.mpr rfl) rfl⟩

/-! ## Claim C7: the equal-length chart invariant

The record-driven line charts append one label and one datapoint per series
for each qualifying record, but the "Weekly averaged COP" chart adds the 52
labels `str(1) .. str(52)` from `range(1, 53)` while pushing all 53 entries
of each year bucket list as datapoints: 52 labels against 53 points per
series, violating the equal-length invariant. -/

set_option maxRecDepth 8192 in
theorem claim7_weekly_chart_length_mismatch :
    (weeklyCopChart [] []).labels.length = 52 ∧
    ((weeklyCopChart [] []).series.map fun p => p.2.length) = [53, 53] ∧
    ¬ ∀ p ∈ (weeklyCopChart [] []).series,
        p.2.length = (weeklyCopChart [] []).labels.length := by
  have h52 : (weeklyCopChart [] []).labels.length = 52 := by decide
  have h53 : ((weeklyCopChart [] []).series.map fun p => p.2.length)
      = [53, 53] := by decide
  refine ⟨h52, h53, ?_⟩
  intro hall
  cases hs : (weeklyCopChart [] []).series with
  | nil => rw [hs] at h53; exact List.noConfusion h53
  | cons p l =>
      rw [hs] at h53
      have hp53 : p.2.length = 53 := by
        have := congrArg (fun xs => xs.headD 0) h53
        simpa using this
      have hp52 : p.2.length = 52 := by
        rw [← h52]
        exact hall p (by rw [hs]; exact List.mem_cons_self _ _)
      omega

/-! ## Claim C4: empty CSV cells are absent, not zero -/

theorem rowEmissions_length (headers row : List String) (parse : String → ℚ) :
    (rowEmissions headers row parse).length =
      ((List.range' 1 (headers.length - 1)).filter
        fun i => !(row.getD i "" == "")).length := by
  unfold rowEmissions
  generalize List.range' 1 (headers.length - 1) = L
  induction L with
  | nil => rfl
  | cons i L ih =>
      rw [List.filterMap_cons, List.filter_cons]
      by_cases h : row.getD i "" = ""
      · rw [if_pos h, h]
        simpa using ih
      · have hb : (row.getD i "" == "") = false := beq_eq_false_iff_ne.mpr h
        rw [if_neg h, hb]
        simpa using ih

theorem rowEmissions_mem (headers row : List String) (parse : String → ℚ)
    (e : Nat × String × ℚ) (he : e ∈ rowEmissions headers row parse) :
    e.1 ∈ List.range' 1 (headers.length - 1) ∧
    row.getD e.1 "" ≠ "" ∧ e.2.1 = headers.getD e.1 "" := by
  unfold rowEmissions at he
  obtain ⟨j, hj, hje⟩ := List.mem_filterMap.mp he
  by_cases h : row.getD j "" = ""
  · rw [if_pos h] at hje
    exact Option.noConfusion hje
  · rw [if_neg h] at hje
    obtain rfl := Option.some.inj hje
    exact ⟨hj, h, rfl⟩

theorem applyRow_preserves_other_fields (ds : Dataset) (date t' : DateTime)
    (headers row : List String) (parse : String → ℚ) (f : MetricField)
    (hnone : ∀ e ∈ rowEmissions headers row parse,
      fieldOfAttrName (normalizeMetric e.2.1) ≠ some f) :
    (Dataset.getRecord (applyRow ds date headers row parse) t').get f =
      (Dataset.getRecord ds t').get f := by
  unfold applyRow
  revert hnone
  generalize rowEmissions headers row parse = L
  intro hnone
  induction L generalizing ds with
  | nil => rfl
  | cons e L ih =>
      simp only [List.foldl_cons]
      rw [ih _ fun e' he' => hnone e' (List.mem_cons_of_mem _ he')]
      exact Dataset.getRecord_add_get_of_ne ds date t' e.2.1 e.2.2 f
        (hnone e (List.mem_cons_self _ _))

set_option linter.unusedVariables false in
/-- C4: for each column after the timestamp, a data row emits exactly one
metric update per non-empty cell; an empty cell emits nothing for its
position, and if every cell whose header maps to a given Record field is
empty, that field of the stored record is left exactly as it was — unset
stays unset (absent, distinguishable from zero).  The hypothesis `hrow`
states that the row covers the header columns, as `read_csv` requires of its
input rows. -/
theorem claim4_empty_cells_not_recorded (headers row : List String)
    (parse : String → ℚ) (ds : Dataset) (date : DateTime) (f : MetricField)
    (hrow : headers.length ≤ row.length) :
    (rowEmissions headers row parse).length =
      ((List.range' 1 (headers.length - 1)).filter
        fun i => !(row.getD i "" == "")).length ∧
    (∀ i, row.getD i "" = "" →
      ∀ e ∈ rowEmissions headers row parse, e.1 ≠ i) ∧
    ((∀ i, i ∈ List.range' 1 (headers.length - 1) →
        fieldOfAttrName (normalizeMetric (headers.getD i "")) = some f →
        row.getD i "" = "") →
      (Dataset.getRecord (applyRow ds date headers row parse) date).get f =
        (Dataset.getRecord ds date).get f) := by
  refine ⟨rowEmissions_length headers row parse, ?_, ?_⟩
  · intro i hi e he hc
    obtain ⟨hrange, hne, hhdr⟩ := rowEmissions_mem headers row parse e he
    rw [hc] at hne
    exact hne hi
  · intro hempty
    refine applyRow_preserves_other_fields ds date date headers row parse f ?_
    intro e he hf
    obtain ⟨hrange, hne, hhdr⟩ := rowEmissions_mem headers row parse e he
    rw [hhdr] at hf
    exact hne (hempty e.1 hrange hf)

theorem claim4_empty_cells_not_recorded_witness :
    (["DateTime", "DhwTankTemperature"] : List String).length ≤
      (["2023-01-01 00:00:00", ""] : List String).length ∧
    ((rowEmissions ["DateTime", "DhwTankTemperature"]
        ["2023-01-01 00:00:00", ""] fun _ => 0).length =
      ((List.range' 1
          ((["DateTime", "DhwTankTemperature"] : List String).length - 1)).filter
        fun i =>
          !((["2023-01-01 00:00:00", ""] : List String).getD i "" == "")).length ∧
    (∀ i, (["2023-01-01 00:00:00", ""] : List String).getD i "" = "" →
      ∀ e ∈ rowEmissions ["DateTime", "DhwTankTemperature"]
          ["2023-01-01 00:00:00", ""] fun _ => 0, e.1 ≠ i) ∧
    ((∀ i, i ∈ List.range' 1
          ((["DateTime", "DhwTankTemperature"] : List String).length - 1) →
        fieldOfAttrName (normalizeMetric
          ((["DateTime", "DhwTankTemperature"] : List String).getD i "")) =
          some .DhwTankTemperature →
        (["2023-01-01 00:00:00", ""] : List String).getD i "" = "") →
      (Dataset.getRecord (applyRow [] ⟨2023, 1, 1, 0⟩
          ["DateTime", "DhwTankTemperature"] ["2023-01-01 00:00:00", ""]
          fun _ => 0) ⟨2023, 1, 1, 0⟩).get .DhwTankTemperature =
        (Dataset.getRecord [] ⟨2023, 1, 1, 0⟩).get .DhwTankTemperature)) :=
  ⟨by decide,
    claim4_empty_cells_not_recorded ["DateTime", "DhwTankTemperature"]
      ["2023-01-01 00:00:00", ""] (fun _ => 0) [] ⟨2023, 1, 1, 0⟩
      .DhwTankTemperature (by decide)⟩

end EnergyData
